import Mathlib

/-!
Shallow embedding of `src/samples/hello-world-plugin/hello-world/main.py`
(`HelloWorldPlugin`).  Python dictionaries are modelled as association
lists from string keys to `PyValue`s; the ambient filesystem is a map
from paths to `Option Nat` (`some size` when the path exists, byte size
attached); effects (log lines printed, notifications requested through
the injected API's UI capability) are returned explicitly.
-/

namespace HelloWorld

/-- A value stored in one of the Python dictionaries returned by the
plugin: either a string or a (non-negative) integer. -/
inductive PyValue where
  | str (s : String)
  | int (n : Nat)
deriving DecidableEq, Repr

/-- The arguments of one `show_notification(title=..., message=..., type=...)`
call on the API's UI capability. -/
structure Notification where
  title : String
  message : String
  type : String
deriving DecidableEq, Repr

/-- The injected `PluginAPI` object.  `ui` records whether a truthy
`ui` attribute (the UI capability) is attached:
`hasattr(self.api, 'ui') and self.api.ui`. -/
structure PluginAPI where
  ui : Bool
deriving DecidableEq, Repr

/-- The mutable state of a `HelloWorldPlugin` instance: the three
fields set in `__init__` (`self.name`, `self.version`, `self.api`).
`api = none` models the Python value `None`. -/
structure HelloWorldPlugin where
  name : String
  version : String
  api : Option PluginAPI
deriving DecidableEq, Repr

/-- The ambient filesystem: `fs path = some size` when `os.path.exists`
is true and `os.path.getsize` returns `size`; `fs path = none` when the
path does not exist. -/
def FileSystem : Type := String → Option Nat

/-- `HelloWorldPlugin.__init__`: `self.name = "Hello World Plugin"`,
`self.version = "1.0.0"`, `self.api = None`. -/
def init : HelloWorldPlugin :=
  { name := "Hello World Plugin", version := "1.0.0", api := none }

/-- The condition guarding the notification in `activate`:
`hasattr(self.api, 'ui') and self.api.ui`.  When `api` is `None`,
`hasattr` is false; otherwise the `ui` attribute must be truthy. -/
def uiCapable (api : Option PluginAPI) : Bool :=
  match api with
  | none => false
  | some a => a.ui

/-- `activate`: prints the log line
`f"{self.name} v{self.version} activated!"` and, when the UI capability
is present, calls `self.api.ui.show_notification` with the fixed
arguments.  Returns (new state, printed line, requested notification). -/
def activate (s : HelloWorldPlugin) :
    HelloWorldPlugin × String × List Notification :=
  (s,
   s.name ++ " v" ++ s.version ++ " activated!",
   if uiCapable s.api then
     [{ title := "Hello World Plugin",
        message := "Plugin successfully loaded!",
        type := "success" }]
   else
     [])

/-- `deactivate`: prints `f"{self.name} v{self.version} deactivated!"`.
Returns (new state, printed line). -/
def deactivate (s : HelloWorldPlugin) : HelloWorldPlugin × String :=
  (s, s.name ++ " v" ++ s.version ++ " deactivated!")

/-- `get_metadata`: returns the four-entry dictionary built from
`self.name`, `self.version` and two literals.  Returns
(new state, dictionary). -/
def get_metadata (s : HelloWorldPlugin) :
    HelloWorldPlugin × List (String × String) :=
  (s,
   [("name", s.name),
    ("version", s.version),
    ("description", "A simple demonstration plugin"),
    ("author", "Smart File Manager Team")])

/-- `process_file(file_path)`: if `os.path.exists(file_path)` is false,
returns `{"error": "File not found"}`; otherwise reads
`os.path.getsize(file_path)` and returns the three-entry success
dictionary.  Returns (new state, dictionary). -/
def process_file (fs : FileSystem) (s : HelloWorldPlugin)
    (file_path : String) : HelloWorldPlugin × List (String × PyValue) :=
  match fs file_path with
  | none => (s, [("error", PyValue.str "File not found")])
  | some file_size =>
      (s,
       [("message",
         PyValue.str ("Hello from plugin! Processed file: " ++ file_path)),
        ("file_size", PyValue.int file_size),
        ("processed_at", PyValue.str "now")])

/-- States of the plugin that can actually arise in the program: the
freshly constructed instance, and anything any of the four methods can
produce from a reachable state.  (No method mutates the state, so this
is just `{init}`, but the definition follows the program's shape.) -/
inductive Reachable : HelloWorldPlugin → Prop where
  | base : Reachable init
  | step_activate (s : HelloWorldPlugin) : Reachable s → Reachable (activate s).1
  | step_deactivate (s : HelloWorldPlugin) : Reachable s → Reachable (deactivate s).1
  | step_get_metadata (s : HelloWorldPlugin) : Reachable s → Reachable (get_metadata s).1
  | step_process_file (fs : FileSystem) (s : HelloWorldPlugin) (p : String) :
      Reachable s → Reachable (process_file fs s p).1

lemma process_file_fst (fs : FileSystem) (s : HelloWorldPlugin) (p : String) :
    (process_file fs s p).1 = s := by
  unfold process_file
  cases fs p <;> rfl

lemma reachable_name_version (s : HelloWorldPlugin) (h : Reachable s) :
    s.name = "Hello World Plugin" ∧ s.version = "1.0.0" := by
  induction h with
  | base => exact ⟨rfl, rfl⟩
  | step_activate s _ ih => exact ih
  | step_deactivate s _ ih => exact ih
  | step_get_metadata s _ ih => exact ih
  | step_process_file fs s p _ ih => rw [process_file_fst]; exact ih

/-- The error dictionary `{"error": "File not found"}`. -/
def errorResult : List (String × PyValue) :=
  [("error", PyValue.str "File not found")]

/-- The success dictionary returned by `process_file` for an existing
path `p` of byte size `n`. -/
def successResult (p : String) (n : Nat) : List (String × PyValue) :=
  [("message", PyValue.str ("Hello from plugin! Processed file: " ++ p)),
   ("file_size", PyValue.int n),
   ("processed_at", PyValue.str "now")]

/-- A sample filesystem in which only the path "a.txt" exists, with
byte size 5. -/
def fsSample : FileSystem :=
  fun p => if p = "a.txt" then some 5 else none

/-- C1: for every plugin state arising in the program, `get_metadata()`
returns a record with exactly the four string fields name, version,
description, author, holding the literal values
name="Hello World Plugin", version="1.0.0",
description="A simple demonstration plugin",
author="Smart File Manager Team". -/
theorem get_metadata_returns_literal_record (s : HelloWorldPlugin)
    (h : Reachable s) :
    (get_metadata s).2 =
      [("name", "Hello World Plugin"),
       ("version", "1.0.0"),
       ("description", "A simple demonstration plugin"),
       ("author", "Smart File Manager Team")] := by
  obtain ⟨hn, hv⟩ := reachable_name_version s h
  simp [get_metadata, hn, hv]

/-- Witness for C1: the freshly constructed plugin is reachable and its
metadata is the literal four-field record. -/
theorem get_metadata_returns_literal_record_witness :
    (get_metadata init).2 =
      [("name", "Hello World Plugin"),
       ("version", "1.0.0"),
       ("description", "A simple demonstration plugin"),
       ("author", "Smart File Manager Team")] :=
  get_metadata_returns_literal_record init Reachable.base

/-- C2: `process_file(path)` returns `{"error": "File not found"}` if
and only if the path does not exist in the ambient filesystem, and it
never raises: for every input its result is either that error record or
the success record (it is a total function of its inputs). -/
theorem process_file_error_iff_not_exists (fs : FileSystem)
    (s : HelloWorldPlugin) (p : String) :
    ((process_file fs s p).2 = errorResult ↔ fs p = none) ∧
    ((process_file fs s p).2 = errorResult ∨
      ∃ n, fs p = some n ∧ (process_file fs s p).2 = successResult p n) := by
  cases hfs : fs p with
  | none =>
      refine ⟨⟨fun _ => rfl, fun _ => ?_⟩, Or.inl ?_⟩ <;>
        simp [process_file, hfs, errorResult]
  | some n =>
      refine ⟨⟨fun hc => ?_, fun hc => ?_⟩, Or.inr ⟨n, rfl, ?_⟩⟩
      · simp [process_file, hfs, errorResult, successResult] at hc
      · simp at hc
      · simp [process_file, hfs, successResult]

/-- C3: for every path that exists with byte size S, `process_file`
returns the success record, whose file_size field is exactly S, whose
message field is a string containing the path, and whose processed_at
field is the placeholder timestamp string "now". -/
theorem process_file_success_record (fs : FileSystem)
    (s : HelloWorldPlugin) (p : String) (S : Nat) (h : fs p = some S) :
    (process_file fs s p).2 =
      [("message",
        PyValue.str ("Hello from plugin! Processed file: " ++ p)),
       ("file_size", PyValue.int S),
       ("processed_at", PyValue.str "now")] ∧
    (∃ pre, "Hello from plugin! Processed file: " ++ p = pre ++ p) := by
  refine ⟨?_, "Hello from plugin! Processed file: ", rfl⟩
  simp [process_file, h]

/-- Witness for C3: on the sample filesystem, "a.txt" exists with size
5 and `process_file` returns the corresponding success record. -/
theorem process_file_success_record_witness :
    (process_file fsSample init "a.txt").2 =
      [("message",
        PyValue.str ("Hello from plugin! Processed file: " ++ "a.txt")),
       ("file_size", PyValue.int 5),
       ("processed_at", PyValue.str "now")] ∧
    (∃ pre, "Hello from plugin! Processed file: " ++ "a.txt" = pre ++ "a.txt") :=
  process_file_success_record fsSample init "a.txt" 5 (by decide)

/-- C4: for every plugin whose injected API object has no UI capability
(including `api = None`), `activate()` completes without raising: it
evaluates to the unchanged state, the log line, and no notification. -/
theorem activate_no_ui_does_not_raise (s : HelloWorldPlugin)
    (h : uiCapable s.api = false) :
    activate s = (s, s.name ++ " v" ++ s.version ++ " activated!", []) := by
  simp [activate, h]

/-- Witness for C4: the freshly constructed plugin has no UI capability
and `activate` completes on it. -/
theorem activate_no_ui_does_not_raise_witness :
    uiCapable init.api = false ∧
    activate init =
      (init, init.name ++ " v" ++ init.version ++ " activated!", []) :=
  ⟨rfl, activate_no_ui_does_not_raise init rfl⟩

/-- C5: `activate()` requests exactly one notification, with the fixed
arguments title="Hello World Plugin",
message="Plugin successfully loaded!", type="success", if and only if a
UI capability is present on the injected API object; otherwise the
request list is empty. -/
theorem activate_notification_iff_ui (s : HelloWorldPlugin) :
    ((activate s).2.2 =
        [{ title := "Hello World Plugin",
           message := "Plugin successfully loaded!",
           type := "success" }] ↔ uiCapable s.api = true) ∧
    ((activate s).2.2 = [] ↔ uiCapable s.api = false) := by
  cases h : uiCapable s.api <;> simp [activate, h]

/-- C6: `deactivate()` emits one log line and has no other effect: the
plugin state is unchanged (hence every field is unchanged) and nothing
else is produced. -/
theorem deactivate_only_logs (s : HelloWorldPlugin) :
    (deactivate s).1 = s ∧
    (deactivate s).2 = s.name ++ " v" ++ s.version ++ " deactivated!" :=
  ⟨rfl, rfl⟩

/-- C7: `get_metadata()` is pure: it leaves the plugin state unchanged,
and two consecutive calls return equal records. -/
theorem get_metadata_pure (s : HelloWorldPlugin) :
    (get_metadata s).1 = s ∧
    (get_metadata (get_metadata s).1).2 = (get_metadata s).2 :=
  ⟨rfl, rfl⟩

/-- C8: a freshly constructed HelloWorldPlugin has `api = None`, so
activating it before the host injects an API requests no
notification. -/
theorem init_api_none_no_notification :
    init.api = none ∧ (activate init).2.2 = [] :=
  ⟨rfl, rfl⟩

/-- C9: for every filesystem, state and path, `process_file` leaves the
plugin state unchanged in both branches (hence the name, version and
api fields are unchanged). -/
theorem process_file_state_unchanged (fs : FileSystem)
    (s : HelloWorldPlugin) (p : String) :
    (process_file fs s p).1 = s :=
  process_file_fst fs s p

/-- C10: the success record's key set is exactly message, file_size,
processed_at and never contains "error", so presence of the "error" key
decides which branch was taken. -/
theorem process_file_keys_disjoint (fs : FileSystem)
    (s : HelloWorldPlugin) (p : String) :
    ((process_file fs s p).2.map Prod.fst =
      if (fs p).isNone then ["error"]
      else ["message", "file_size", "processed_at"]) ∧
    ("error" ∈ (process_file fs s p).2.map Prod.fst ↔
      (fs p).isNone = true) := by
  cases hfs : fs p <;> simp [process_file, hfs]

end HelloWorld
